import Mathlib

/-!
Verification of the Observer pattern script
`src/DesignPatterns/BehavioralPatterns/observer.py`.

A shallow embedding of the single Python source file. Python objects used
as subscribers have object identity and no custom `__eq__`, so a subscriber
is modelled as an identity number tagged with its concrete class
(`SubscriberA` or `SubscriberB`). Stateful methods become explicit
state-passing functions that also return the ordered trace of observable
events they emit (lines printed, `notify` invocations, and `update`
invocations). `list.remove` keeps CPython semantics: it deletes the first
matching entry or, when none matches, raises `ValueError` leaving the list
untouched. `randrange(0, 10)` is modelled as a draw from an arbitrary seed
reduced into the half-open range `[0, 10)`.
-/

/-- The concrete subscriber classes of the script. -/
inductive SubKind
  | A
  | B
  deriving DecidableEq, Repr

/-- A subscriber object: an object identity plus its concrete class.
Equality is Python object identity (neither class defines `__eq__`). -/
structure Subscriber where
  oid : Nat
  kind : SubKind
  deriving DecidableEq, Repr

/-- Observable events: a printed line, an invocation of `notify`, or an
invocation of `update` on a given subscriber object. -/
inductive TraceEvent
  | line (s : String)
  | notifyCall
  | updateCall (s : Subscriber)
  deriving DecidableEq, Repr

/-- State of `ConcretePublisher`: the ordered subscriber list `_subscribers`
and the integer field `_new_products`. -/
structure ConcretePublisher where
  subscribers : List Subscriber
  new_products : Int
  deriving DecidableEq, Repr

/-- Constructor `ConcretePublisher.__init__`: empty subscriber list, product count 0. -/
def ConcretePublisher.init : ConcretePublisher :=
  { subscribers := [], new_products := 0 }

/-- Method `SubscriberA.update`: prints the action line when
`publisher._new_products > 0`; never mutates the publisher, never raises. -/
def SubscriberA.update (p : ConcretePublisher) :
    Except String (ConcretePublisher × List TraceEvent) :=
  Except.ok (p,
    if p.new_products > 0 then [TraceEvent.line "SubscriberA: Action Taken"] else [])

/-- Method `SubscriberB.update`: prints the (identical) action line when
`publisher._new_products > 2`; never mutates the publisher, never raises. -/
def SubscriberB.update (p : ConcretePublisher) :
    Except String (ConcretePublisher × List TraceEvent) :=
  Except.ok (p,
    if p.new_products > 2 then [TraceEvent.line "SubscriberA: Action Taken"] else [])

/-- Dynamic dispatch of `subscriber.update(self)` over the two concrete
subscriber classes. -/
def Subscriber.update (s : Subscriber) (p : ConcretePublisher) :
    Except String (ConcretePublisher × List TraceEvent) :=
  match s.kind with
  | SubKind.A => SubscriberA.update p
  | SubKind.B => SubscriberB.update p

/-- Method `ConcretePublisher.add_subscriber`: prints a trace line and appends the
subscriber to the end of the list (no uniqueness check). -/
def ConcretePublisher.add_subscriber (p : ConcretePublisher) (s : Subscriber) :
    ConcretePublisher × List TraceEvent :=
  ({ p with subscribers := p.subscribers ++ [s] },
   [TraceEvent.line "Publisher: Adding subscriber !"])

/-- CPython `list.remove(x)`: deletes the first entry equal to `x`; returns
`none` when no entry matches (the caller raises `ValueError`), in which case
the list is left unchanged. -/
def pyListRemove (xs : List Subscriber) (x : Subscriber) : Option (List Subscriber) :=
  match xs with
  | [] => none
  | y :: rest =>
    if y = x then some rest else (pyListRemove rest x).map (fun t => y :: t)

/-- The `ValueError` message CPython raises for `list.remove` on a missing
element. -/
def removeErrMsg : String := "list.remove(x): x not in list"

/-- Method `ConcretePublisher.remove_subscriber`: prints a trace line, then removes
the first matching entry via `list.remove`; when the subscriber is absent the
`ValueError` is signalled and the state is unchanged. -/
def ConcretePublisher.remove_subscriber (p : ConcretePublisher) (s : Subscriber) :
    ConcretePublisher × List TraceEvent × Option String :=
  match pyListRemove p.subscribers s with
  | some subs =>
    ({ p with subscribers := subs },
     [TraceEvent.line "Publisher: Removing subscriber !"], none)
  | none =>
    (p, [TraceEvent.line "Publisher: Removing subscriber !"], some removeErrMsg)

/-- The body of `ConcretePublisher.notify`: iterate the subscriber list,
invoking `update(self)` on each entry in order, threading the publisher
state through the calls. -/
def notifyLoop : List Subscriber → ConcretePublisher →
    Except String (ConcretePublisher × List TraceEvent)
  | [], p => Except.ok (p, [])
  | s :: rest, p =>
    match s.update p with
    | Except.error e => Except.error e
    | Except.ok (p1, tr) =>
      match notifyLoop rest p1 with
      | Except.error e => Except.error e
      | Except.ok (p2, tr2) =>
        Except.ok (p2, TraceEvent.updateCall s :: tr ++ tr2)

/-- Method `ConcretePublisher.notify`: run the loop over the subscribers present
when the call begins. -/
def ConcretePublisher.notify (p : ConcretePublisher) :
    Except String (ConcretePublisher × List TraceEvent) :=
  notifyLoop p.subscribers p

/-- Python `randrange(lo, hi)`: a pseudo-random integer in `[lo, hi)`,
modelled as an arbitrary seed reduced into the range. -/
def randrange (lo hi seed : Nat) : Nat :=
  lo + seed % (hi - lo)

/-- Method `ConcretePublisher.business_logic`: print the inventory line, draw
`randrange(0, 10)` into `_new_products`, print the new count, then call
`self.notify()`. -/
def ConcretePublisher.business_logic (p : ConcretePublisher) (seed : Nat) :
    Except String (ConcretePublisher × List TraceEvent) :=
  let n := randrange 0 10 seed
  let p1 : ConcretePublisher := { p with new_products := (n : Int) }
  match p1.notify with
  | Except.error e => Except.error e
  | Except.ok (p2, tr) =>
    Except.ok (p2,
      TraceEvent.line "\nPublisher: Checking Inventory for new products!" ::
      TraceEvent.line
        ("Publisher: My new products count has just changed to: " ++
          toString n) ::
      TraceEvent.notifyCall :: tr)

/-- The subscribers an event trace records `update` invocations on, in
order. -/
def updateTargets (tr : List TraceEvent) : List Subscriber :=
  tr.filterMap (fun e =>
    match e with
    | TraceEvent.updateCall s => some s
    | _ => none)

/-- Whether a subscriber's `update` performs its visible action (prints at
least one line) on the given publisher state. -/
def updateFires (s : Subscriber) (p : ConcretePublisher) : Bool :=
  match s.update p with
  | Except.ok (_, tr) => !tr.isEmpty
  | Except.error _ => false

/-- The action line both concrete subscriber classes print. -/
def actionLine : TraceEvent := TraceEvent.line "SubscriberA: Action Taken"

/-- Closed form of the trace a single `update` call emits. -/
def updateOut (s : Subscriber) (p : ConcretePublisher) : List TraceEvent :=
  if updateFires s p then [actionLine] else []

/-- Closed form of the trace a `notify` pass over the given subscriber list
emits. -/
def notifyOut : List Subscriber → ConcretePublisher → List TraceEvent
  | [], _ => []
  | s :: rest, p => TraceEvent.updateCall s :: updateOut s p ++ notifyOut rest p

/-- Calling `add_subscriber` on the same publisher `k` times with the same
subscriber. -/
def addTimes (p : ConcretePublisher) (s : Subscriber) : Nat → ConcretePublisher
  | 0 => p
  | k + 1 => ((addTimes p s k).add_subscriber s).1

/-- The `sub_a` object of the driver (`SubscriberA()`). -/
def sub_a : Subscriber := { oid := 0, kind := SubKind.A }

/-- The `sub_b` object of the driver (`SubscriberB()`). -/
def sub_b : Subscriber := { oid := 1, kind := SubKind.B }

/-- The `__main__` driver, one entry per statement: construct the publisher,
add `sub_a` and `sub_b`, run `business_logic` three times, remove `sub_a`,
run `business_logic` twice more. Returns the state after each step with the
trace that step emitted; an uncaught error aborts the script. -/
def mainSteps (s1 s2 s3 s4 s5 : Nat) :
    Except String (List (ConcretePublisher × List TraceEvent)) :=
  let p0 := ConcretePublisher.init
  let (pA, trA) := p0.add_subscriber sub_a
  let (pB, trB) := pA.add_subscriber sub_b
  match pB.business_logic s1 with
  | Except.error e => Except.error e
  | Except.ok (p1, tr1) =>
  match p1.business_logic s2 with
  | Except.error e => Except.error e
  | Except.ok (p2, tr2) =>
  match p2.business_logic s3 with
  | Except.error e => Except.error e
  | Except.ok (p3, tr3) =>
  match p3.remove_subscriber sub_a with
  | (_, _, some e) => Except.error e
  | (pR, trR, none) =>
  match pR.business_logic s4 with
  | Except.error e => Except.error e
  | Except.ok (p4, tr4) =>
  match p4.business_logic s5 with
  | Except.error e => Except.error e
  | Except.ok (p5, tr5) =>
    Except.ok [(pA, trA), (pB, trB), (p1, tr1), (p2, tr2), (p3, tr3),
               (pR, trR), (p4, tr4), (p5, tr5)]

/-! Shared lemmas about the embedded operations. -/

/-- An `update` call returns `ok`, leaves the publisher unchanged, and emits
`updateOut`. -/
theorem update_eq (s : Subscriber) (p : ConcretePublisher) :
    s.update p = Except.ok (p, updateOut s p) := by
  cases s with
  | mk oid k =>
    cases k with
    | A =>
      by_cases h : p.new_products > 0 <;>
        simp [Subscriber.update, SubscriberA.update, updateOut, updateFires,
          actionLine, h]
    | B =>
      by_cases h : p.new_products > 2 <;>
        simp [Subscriber.update, SubscriberB.update, updateOut, updateFires,
          actionLine, h]

/-- The notify loop returns `ok`, leaves the publisher unchanged, and emits
`notifyOut`. -/
theorem notifyLoop_eq (subs : List Subscriber) (p : ConcretePublisher) :
    notifyLoop subs p = Except.ok (p, notifyOut subs p) := by
  induction subs with
  | nil => rfl
  | cons s rest ih => simp [notifyLoop, update_eq, ih, notifyOut]

/-- Closed form of `notify`. -/
theorem notify_eq (p : ConcretePublisher) :
    p.notify = Except.ok (p, notifyOut p.subscribers p) :=
  notifyLoop_eq p.subscribers p

/-- Closed form of `business_logic`. -/
theorem business_logic_eq (p : ConcretePublisher) (seed : Nat) :
    p.business_logic seed =
      Except.ok ({ p with new_products := ((randrange 0 10 seed : Nat) : Int) },
        TraceEvent.line "\nPublisher: Checking Inventory for new products!" ::
        TraceEvent.line
          ("Publisher: My new products count has just changed to: " ++
            toString (randrange 0 10 seed)) ::
        TraceEvent.notifyCall ::
        notifyOut p.subscribers
          { p with new_products := ((randrange 0 10 seed : Nat) : Int) }) := by
  simp [ConcretePublisher.business_logic, notify_eq]

/-- A trace made only of printed lines records no `update` invocation. -/
theorem updateTargets_updateOut (s : Subscriber) (p : ConcretePublisher) :
    updateTargets (updateOut s p) = [] := by
  by_cases h : updateFires s p <;> simp [updateOut, updateTargets, actionLine, h]

/-- `updateTargets` distributes over appending traces. -/
theorem updateTargets_append (t1 t2 : List TraceEvent) :
    updateTargets (t1 ++ t2) = updateTargets t1 ++ updateTargets t2 :=
  List.filterMap_append t1 t2 _

/-- The `update` invocations a notify pass records are exactly the
subscriber list it iterated, in order. -/
theorem updateTargets_notifyOut (subs : List Subscriber) (p : ConcretePublisher) :
    updateTargets (notifyOut subs p) = subs := by
  induction subs with
  | nil => rfl
  | cons s rest ih =>
    have h1 := updateTargets_updateOut s p
    simp only [updateTargets] at h1 ih ⊢
    simp [notifyOut, List.filterMap_cons, List.filterMap_append, h1, ih]

/-- A notify pass never records a `notify` invocation of its own. -/
theorem notifyCall_notin_notifyOut (subs : List Subscriber) (p : ConcretePublisher) :
    TraceEvent.notifyCall ∉ notifyOut subs p := by
  induction subs with
  | nil => simp [notifyOut]
  | cons s rest ih =>
    by_cases h : updateFires s p <;>
      simp [notifyOut, updateOut, actionLine, h, ih]

/-- Relation between the embedded `list.remove` and `List.erase`: the first
matching entry is removed when present, and the list is untouched (signalled
by `none`) when absent. -/
theorem pyListRemove_eq (xs : List Subscriber) (x : Subscriber) :
    pyListRemove xs x = if x ∈ xs then some (xs.erase x) else none := by
  induction xs with
  | nil => rfl
  | cons y rest ih =>
    by_cases h : y = x
    · subst h
      simp [pyListRemove, List.erase_cons_head]
    · have h2 : ¬(y == x) = true := by simp [h]
      by_cases hm : x ∈ rest <;>
        simp [pyListRemove, h, Ne.symm h, hm, ih, List.erase_cons_tail h2]

/-- Closed form of `remove_subscriber` when the subscriber is present. -/
theorem remove_subscriber_mem (p : ConcretePublisher) (s : Subscriber)
    (h : s ∈ p.subscribers) :
    p.remove_subscriber s =
      ({ p with subscribers := p.subscribers.erase s },
       [TraceEvent.line "Publisher: Removing subscriber !"], none) := by
  simp [ConcretePublisher.remove_subscriber, pyListRemove_eq, h]

/-- Closed form of `remove_subscriber` when the subscriber is absent. -/
theorem remove_subscriber_notmem (p : ConcretePublisher) (s : Subscriber)
    (h : s ∉ p.subscribers) :
    p.remove_subscriber s =
      (p, [TraceEvent.line "Publisher: Removing subscriber !"],
       some removeErrMsg) := by
  simp [ConcretePublisher.remove_subscriber, pyListRemove_eq, h]

/-- A `SubscriberA` object fires exactly when the product count is
positive. -/
theorem updateFires_A (i : Nat) (p : ConcretePublisher) :
    updateFires { oid := i, kind := SubKind.A } p = true ↔
      0 < p.new_products := by
  by_cases h : p.new_products > 0 <;>
    simp [updateFires, Subscriber.update, SubscriberA.update, h]

/-- A `SubscriberB` object fires exactly when the product count exceeds 2. -/
theorem updateFires_B (j : Nat) (p : ConcretePublisher) :
    updateFires { oid := j, kind := SubKind.B } p = true ↔
      2 < p.new_products := by
  by_cases h : p.new_products > 2 <;>
    simp [updateFires, Subscriber.update, SubscriberB.update, h]

/-- A notify pass records no `notify` invocation, counted form. -/
theorem count_notifyCall_notifyOut (subs : List Subscriber)
    (p : ConcretePublisher) :
    (notifyOut subs p).count TraceEvent.notifyCall = 0 :=
  List.count_eq_zero.2 (notifyCall_notin_notifyOut subs p)

/-- The line announcing the new product count is never the subscriber action
line, whatever the count printed. -/
theorem countLine_ne_action (x : String) :
    "Publisher: My new products count has just changed to: " ++ x ≠
      "SubscriberA: Action Taken" := by
  intro h
  have h1 := congrArg String.length h
  rw [String.length_append] at h1
  have h2 : ("Publisher: My new products count has just changed to: ").length
      = 54 := rfl
  have h3 : ("SubscriberA: Action Taken").length = 25 := rfl
  omega

/-- In a `business_logic` trace over the subscriber list `[sub_b]`, the
action line occurs exactly when the drawn count exceeds 2. -/
theorem actionLine_mem_iff (n : Nat) :
    (TraceEvent.line "SubscriberA: Action Taken" ∈
      (TraceEvent.line "\nPublisher: Checking Inventory for new products!" ::
       TraceEvent.line
         ("Publisher: My new products count has just changed to: " ++
           toString n) ::
       TraceEvent.notifyCall ::
       notifyOut [sub_b] { subscribers := [sub_b],
                           new_products := (n : Int) })) ↔
      2 < n := by
  have hne := countLine_ne_action (toString n)
  by_cases h : 2 < n
  · have hf : updateFires sub_b
        { subscribers := [sub_b], new_products := (n : Int) } = true := by
      rw [show sub_b = { oid := 1, kind := SubKind.B } from rfl, updateFires_B]
      show (2 : Int) < (n : Int)
      exact_mod_cast h
    simp [notifyOut, updateOut, actionLine, hf, h]
  · have hf : updateFires sub_b
        { subscribers := [sub_b], new_products := (n : Int) } = false := by
      rw [Bool.eq_false_iff]
      intro hc
      have h2 : (2 : Int) < (n : Int) := (updateFires_B 1 _).1 hc
      exact h (by exact_mod_cast h2)
    simp [notifyOut, updateOut, actionLine, hf, h, Ne.symm hne]

/-! Claim theorems. -/

/-- C1: `notify` invokes `update(self)` on exactly the subscribers present
in the sequence at the moment `notify` begins, once per occurrence of each
subscriber in the sequence, in insertion (registration) order. -/
theorem observer_C1 (p : ConcretePublisher) :
    ∃ tr, p.notify = Except.ok (p, tr) ∧ updateTargets tr = p.subscribers :=
  ⟨notifyOut p.subscribers p, notify_eq p, updateTargets_notifyOut _ _⟩

/-- C2: for every publisher state, a `SubscriberA` object performs its
visible action exactly when `newProductsCount > 0`, a `SubscriberB` object
exactly when `newProductsCount > 2`, so whenever B fires A fires too. -/
theorem observer_C2 (p : ConcretePublisher) (i j : Nat) :
    (updateFires { oid := i, kind := SubKind.A } p = true ↔
      0 < p.new_products) ∧
    (updateFires { oid := j, kind := SubKind.B } p = true ↔
      2 < p.new_products) ∧
    (updateFires { oid := j, kind := SubKind.B } p = true →
      updateFires { oid := i, kind := SubKind.A } p = true) := by
  refine ⟨updateFires_A i p, updateFires_B j p, fun hb => ?_⟩
  rw [updateFires_A]
  have h2 := (updateFires_B j p).1 hb
  omega

/-- Witness for the hypothesis of C2's third conjunct, at state 5. -/
theorem observer_C2_witness :
    updateFires { oid := 0, kind := SubKind.A }
      { subscribers := [], new_products := 5 } = true :=
  (observer_C2 { subscribers := [], new_products := 5 } 0 1).2.2 (by decide)

/-- C3: removing an absent subscriber signals the `ValueError` from
`list.remove` and leaves the publisher unchanged (so a later `notify` is the
same call as before); removing the same subscriber twice surfaces the error
on the second call with the state of the first removal preserved. -/
theorem observer_C3 :
    (∀ (p : ConcretePublisher) (s : Subscriber), s ∉ p.subscribers →
      p.remove_subscriber s =
        (p, [TraceEvent.line "Publisher: Removing subscriber !"],
         some removeErrMsg)) ∧
    (∀ (p : ConcretePublisher) (s : Subscriber), p.subscribers.count s = 1 →
      ((p.remove_subscriber s).1.remove_subscriber s).1 =
          (p.remove_subscriber s).1 ∧
        ((p.remove_subscriber s).1.remove_subscriber s).2.2 =
          some removeErrMsg) := by
  constructor
  · intro p s h
    exact remove_subscriber_notmem p s h
  · intro p s h
    have hmem : s ∈ p.subscribers := by
      rw [← List.count_pos_iff]
      omega
    have h1 := remove_subscriber_mem p s hmem
    have hgone : s ∉ p.subscribers.erase s := by
      rw [← List.count_eq_zero, List.count_erase_self]
      omega
    rw [h1]
    have h2 := remove_subscriber_notmem
      { p with subscribers := p.subscribers.erase s } s hgone
    rw [h2]
    exact ⟨rfl, rfl⟩

/-- Witness for C3: removing `sub_a` from a publisher holding only `sub_b`
fails, and removing `sub_a` twice from `[sub_a]` fails the second time. -/
theorem observer_C3_witness :
    (ConcretePublisher.remove_subscriber
        { subscribers := [sub_b], new_products := 0 } sub_a =
      ({ subscribers := [sub_b], new_products := 0 },
       [TraceEvent.line "Publisher: Removing subscriber !"],
       some removeErrMsg)) ∧
    ((((ConcretePublisher.mk [sub_a] 0).remove_subscriber
          sub_a).1.remove_subscriber sub_a).1 =
        ((ConcretePublisher.mk [sub_a] 0).remove_subscriber sub_a).1 ∧
      (((ConcretePublisher.mk [sub_a] 0).remove_subscriber
          sub_a).1.remove_subscriber sub_a).2.2 = some removeErrMsg) :=
  ⟨observer_C3.1 { subscribers := [sub_b], new_products := 0 } sub_a
      (by decide),
   observer_C3.2 (ConcretePublisher.mk [sub_a] 0) sub_a (by decide)⟩

/-- C4: for every outcome of the pseudo-random draw, `business_logic` sets
`newProductsCount` to an integer in `[0, 10)` and then triggers exactly one
`notify` call (unconditionally, even if the drawn value equals the previous
one). -/
theorem observer_C4 (p : ConcretePublisher) (seed : Nat) :
    ∃ p' tr, p.business_logic seed = Except.ok (p', tr) ∧
      p'.new_products = ((randrange 0 10 seed : Nat) : Int) ∧
      0 ≤ p'.new_products ∧ p'.new_products < 10 ∧
      tr.count TraceEvent.notifyCall = 1 := by
  refine ⟨_, _, business_logic_eq p seed, rfl, ?_, ?_, ?_⟩
  · exact Int.ofNat_nonneg _
  · show ((randrange 0 10 seed : Nat) : Int) < 10
    have h : randrange 0 10 seed < 10 := by
      simp [randrange]
      omega
    exact_mod_cast h
  · simp [List.count_cons, count_notifyCall_notifyOut]

/-- C5: `remove_subscriber` removes exactly the first matching entry; after
removing a subscriber present exactly once, the next `notify` does not
invoke `update` on it, while a subscriber registered at least twice is still
notified after one successful removal. -/
theorem observer_C5 :
    (∀ (p : ConcretePublisher) (s : Subscriber), s ∈ p.subscribers →
      (p.remove_subscriber s).1.subscribers = p.subscribers.erase s ∧
        (p.remove_subscriber s).2.2 = none) ∧
    (∀ (p : ConcretePublisher) (s : Subscriber), p.subscribers.count s = 1 →
      ∃ tr, (p.remove_subscriber s).1.notify =
          Except.ok ((p.remove_subscriber s).1, tr) ∧
        s ∉ updateTargets tr) ∧
    (∀ (p : ConcretePublisher) (s : Subscriber), 2 ≤ p.subscribers.count s →
      ∃ tr, (p.remove_subscriber s).1.notify =
          Except.ok ((p.remove_subscriber s).1, tr) ∧
        s ∈ updateTargets tr) := by
  refine ⟨fun p s h => ?_, fun p s h => ?_, fun p s h => ?_⟩
  · rw [remove_subscriber_mem p s h]
    exact ⟨rfl, rfl⟩
  · have hmem : s ∈ p.subscribers := by
      rw [← List.count_pos_iff]
      omega
    rw [remove_subscriber_mem p s hmem]
    refine ⟨_, notify_eq _, ?_⟩
    rw [updateTargets_notifyOut]
    show s ∉ p.subscribers.erase s
    rw [← List.count_eq_zero, List.count_erase_self]
    omega
  · have hmem : s ∈ p.subscribers := by
      rw [← List.count_pos_iff]
      omega
    rw [remove_subscriber_mem p s hmem]
    refine ⟨_, notify_eq _, ?_⟩
    rw [updateTargets_notifyOut]
    show s ∈ p.subscribers.erase s
    rw [← List.count_pos_iff, List.count_erase_self]
    omega

/-- Witness for C5: removing `sub_a` once from `[sub_a, sub_b]` stops its
notifications, while removing it once from `[sub_a, sub_a]` does not. -/
theorem observer_C5_witness :
    ((ConcretePublisher.mk [sub_a, sub_b] 5).remove_subscriber
          sub_a).1.subscribers = [sub_a, sub_b].erase sub_a ∧
    (∃ tr, ((ConcretePublisher.mk [sub_a, sub_b] 5).remove_subscriber
          sub_a).1.notify =
        Except.ok
          (((ConcretePublisher.mk [sub_a, sub_b] 5).remove_subscriber
            sub_a).1, tr) ∧
      sub_a ∉ updateTargets tr) ∧
    (∃ tr, ((ConcretePublisher.mk [sub_a, sub_a] 5).remove_subscriber
          sub_a).1.notify =
        Except.ok
          (((ConcretePublisher.mk [sub_a, sub_a] 5).remove_subscriber
            sub_a).1, tr) ∧
      sub_a ∈ updateTargets tr) :=
  ⟨(observer_C5.1 (ConcretePublisher.mk [sub_a, sub_b] 5) sub_a
      (by decide)).1,
   observer_C5.2.1 (ConcretePublisher.mk [sub_a, sub_b] 5) sub_a (by decide),
   observer_C5.2.2 (ConcretePublisher.mk [sub_a, sub_a] 5) sub_a (by decide)⟩

/-- C6: `add_subscriber` appends to the end of the sequence with no
uniqueness check, and after adding the same subscriber `k` more times a
`notify` pass invokes `update` on it `k` more times. -/
theorem observer_C6 (p : ConcretePublisher) (s : Subscriber) (k : Nat) :
    (p.add_subscriber s).1.subscribers = p.subscribers ++ [s] ∧
    (addTimes p s k).subscribers = p.subscribers ++ List.replicate k s ∧
    ∃ tr, (addTimes p s k).notify = Except.ok (addTimes p s k, tr) ∧
      (updateTargets tr).count s = p.subscribers.count s + k := by
  have hsubs : ∀ m, (addTimes p s m).subscribers =
      p.subscribers ++ List.replicate m s := by
    intro m
    induction m with
    | zero => simp [addTimes]
    | succ n ih =>
      simp [addTimes, ConcretePublisher.add_subscriber, ih,
        List.replicate_succ']
  refine ⟨rfl, hsubs k, ⟨_, notify_eq _, ?_⟩⟩
  rw [updateTargets_notifyOut, hsubs k, List.count_append,
    List.count_replicate_self]

/-- C7: `update` on either concrete subscriber class returns without error
and leaves the publisher (its subscriber list and product count) exactly as
it was. -/
theorem observer_C7 (p : ConcretePublisher) :
    (∃ tr, SubscriberA.update p = Except.ok (p, tr)) ∧
    (∃ tr, SubscriberB.update p = Except.ok (p, tr)) ∧
    (∀ s : Subscriber, ∃ tr, s.update p = Except.ok (p, tr)) :=
  ⟨⟨_, rfl⟩, ⟨_, rfl⟩, fun s => ⟨updateOut s p, update_eq s p⟩⟩

/-- C8: a `ConcretePublisher` starts with no subscribers and count 0;
`add_subscriber`, `remove_subscriber` and `notify` never change the product
count, and `business_logic` never changes the subscriber sequence. -/
theorem observer_C8 :
    ConcretePublisher.init.subscribers = [] ∧
    ConcretePublisher.init.new_products = 0 ∧
    (∀ (p : ConcretePublisher) (s : Subscriber),
      (p.add_subscriber s).1.new_products = p.new_products) ∧
    (∀ (p : ConcretePublisher) (s : Subscriber),
      (p.remove_subscriber s).1.new_products = p.new_products) ∧
    (∀ p : ConcretePublisher, ∃ tr, p.notify = Except.ok (p, tr)) ∧
    (∀ (p : ConcretePublisher) (seed : Nat), ∃ p' tr,
      p.business_logic seed = Except.ok (p', tr) ∧
      p'.subscribers = p.subscribers) := by
  refine ⟨rfl, rfl, fun p s => rfl, fun p s => ?_, fun p => ⟨_, notify_eq p⟩,
    fun p seed => ⟨_, _, business_logic_eq p seed, rfl⟩⟩
  rcases hh : pyListRemove p.subscribers s with _ | subs <;>
    simp [ConcretePublisher.remove_subscriber, hh]

/-- C9: whenever a `SubscriberB` object fires, its whole observable
behaviour, including the printed line "SubscriberA: Action Taken", is
identical to what a firing `SubscriberA` object produces. -/
theorem observer_C9 (p : ConcretePublisher) (i j : Nat)
    (h : 2 < p.new_products) :
    Subscriber.update { oid := j, kind := SubKind.B } p =
      Subscriber.update { oid := i, kind := SubKind.A } p ∧
    Subscriber.update { oid := j, kind := SubKind.B } p =
      Except.ok (p, [TraceEvent.line "SubscriberA: Action Taken"]) := by
  have h0 : (0 : Int) < p.new_products := by omega
  simp [Subscriber.update, SubscriberA.update, SubscriberB.update, h, h0]

/-- Witness for C9 at product count 5. -/
theorem observer_C9_witness :
    Subscriber.update { oid := 1, kind := SubKind.B }
        (ConcretePublisher.mk [] 5) =
      Subscriber.update { oid := 0, kind := SubKind.A }
        (ConcretePublisher.mk [] 5) ∧
    Subscriber.update { oid := 1, kind := SubKind.B }
        (ConcretePublisher.mk [] 5) =
      Except.ok (ConcretePublisher.mk [] 5,
        [TraceEvent.line "SubscriberA: Action Taken"]) :=
  observer_C9 (ConcretePublisher.mk [] 5) 0 1 (by decide)

/-- Events printed before the notify pass carry no `update` invocation. -/
theorem updateTargets_business (l1 l2 : String) (rest : List TraceEvent) :
    updateTargets (TraceEvent.line l1 :: TraceEvent.line l2 ::
      TraceEvent.notifyCall :: rest) = updateTargets rest := by
  simp [updateTargets]

/-- Closed form of the whole driver run, for arbitrary draws. -/
theorem mainSteps_eq (s1 s2 s3 s4 s5 : Nat) :
    mainSteps s1 s2 s3 s4 s5 = Except.ok [
      (ConcretePublisher.mk [sub_a] 0,
       [TraceEvent.line "Publisher: Adding subscriber !"]),
      (ConcretePublisher.mk [sub_a, sub_b] 0,
       [TraceEvent.line "Publisher: Adding subscriber !"]),
      (ConcretePublisher.mk [sub_a, sub_b] ((randrange 0 10 s1 : Nat) : Int),
       TraceEvent.line "\nPublisher: Checking Inventory for new products!" ::
       TraceEvent.line
         ("Publisher: My new products count has just changed to: " ++
           toString (randrange 0 10 s1)) ::
       TraceEvent.notifyCall ::
       notifyOut [sub_a, sub_b]
         (ConcretePublisher.mk [sub_a, sub_b]
           ((randrange 0 10 s1 : Nat) : Int))),
      (ConcretePublisher.mk [sub_a, sub_b] ((randrange 0 10 s2 : Nat) : Int),
       TraceEvent.line "\nPublisher: Checking Inventory for new products!" ::
       TraceEvent.line
         ("Publisher: My new products count has just changed to: " ++
           toString (randrange 0 10 s2)) ::
       TraceEvent.notifyCall ::
       notifyOut [sub_a, sub_b]
         (ConcretePublisher.mk [sub_a, sub_b]
           ((randrange 0 10 s2 : Nat) : Int))),
      (ConcretePublisher.mk [sub_a, sub_b] ((randrange 0 10 s3 : Nat) : Int),
       TraceEvent.line "\nPublisher: Checking Inventory for new products!" ::
       TraceEvent.line
         ("Publisher: My new products count has just changed to: " ++
           toString (randrange 0 10 s3)) ::
       TraceEvent.notifyCall ::
       notifyOut [sub_a, sub_b]
         (ConcretePublisher.mk [sub_a, sub_b]
           ((randrange 0 10 s3 : Nat) : Int))),
      (ConcretePublisher.mk [sub_b] ((randrange 0 10 s3 : Nat) : Int),
       [TraceEvent.line "Publisher: Removing subscriber !"]),
      (ConcretePublisher.mk [sub_b] ((randrange 0 10 s4 : Nat) : Int),
       TraceEvent.line "\nPublisher: Checking Inventory for new products!" ::
       TraceEvent.line
         ("Publisher: My new products count has just changed to: " ++
           toString (randrange 0 10 s4)) ::
       TraceEvent.notifyCall ::
       notifyOut [sub_b]
         (ConcretePublisher.mk [sub_b] ((randrange 0 10 s4 : Nat) : Int))),
      (ConcretePublisher.mk [sub_b] ((randrange 0 10 s5 : Nat) : Int),
       TraceEvent.line "\nPublisher: Checking Inventory for new products!" ::
       TraceEvent.line
         ("Publisher: My new products count has just changed to: " ++
           toString (randrange 0 10 s5)) ::
       TraceEvent.notifyCall ::
       notifyOut [sub_b]
         (ConcretePublisher.mk [sub_b] ((randrange 0 10 s5 : Nat) : Int)))] := by
  simp [mainSteps, ConcretePublisher.init, ConcretePublisher.add_subscriber,
    business_logic_eq, ConcretePublisher.remove_subscriber, pyListRemove]

/-- C10: the driver removes `sub_a` (not `sub_b`) after the first three
`business_logic` calls; during the final two calls only `sub_b` receives an
`update` invocation, and the subscriber action line appears in those calls
exactly when the drawn count exceeds 2. -/
theorem observer_C10 (s1 s2 s3 s4 s5 : Nat) :
    ∃ pA pB p1 p2 p3 pR p4 p5 trA trB tr1 tr2 tr3 trR tr4 tr5,
      mainSteps s1 s2 s3 s4 s5 =
        Except.ok [(pA, trA), (pB, trB), (p1, tr1), (p2, tr2), (p3, tr3),
                   (pR, trR), (p4, tr4), (p5, tr5)] ∧
      p3.subscribers = [sub_a, sub_b] ∧
      pR.subscribers = [sub_b] ∧
      updateTargets tr4 = [sub_b] ∧
      updateTargets tr5 = [sub_b] ∧
      (TraceEvent.line "SubscriberA: Action Taken" ∈ tr4 ↔
        2 < randrange 0 10 s4) ∧
      (TraceEvent.line "SubscriberA: Action Taken" ∈ tr5 ↔
        2 < randrange 0 10 s5) := by
  refine ⟨_, _, _, _, _, _, _, _, _, _, _, _, _, _, _, _,
    mainSteps_eq s1 s2 s3 s4 s5, rfl, rfl, ?_, ?_, ?_, ?_⟩
  · rw [updateTargets_business, updateTargets_notifyOut]
  · rw [updateTargets_business, updateTargets_notifyOut]
  · exact actionLine_mem_iff (randrange 0 10 s4)
  · exact actionLine_mem_iff (randrange 0 10 s5)
